import Mathlib

/-
Verification development for the nftstorage.link perma-cache client SDK.
The definitions below are a shallow embedding of the JavaScript source:
the PermaCache class (constructor, static headers, static put, static
list), the createRateLimiter factory and the module-level constants.
Server behaviour and JS runtime effects are made explicit: each item of a
put batch receives a deterministic sequence of HTTP results (one per
attempt the code could make), and every awaited effect (rate-limiter
grant, fetch, onCachedUrl callback) is recorded in an action trace.
-/

namespace NftStorageLink

/-- Source constant MAX_PUT_RETRIES = 5. -/
def MAX_PUT_RETRIES : Nat := 5

/-- Source constant RATE_LIMIT_REQUESTS = 100. -/
def RATE_LIMIT_REQUESTS : Nat := 100

/-- Source constant RATE_LIMIT_PERIOD = 60 * 1000 milliseconds. -/
def RATE_LIMIT_PERIOD : Nat := 60 * 1000

/-- A rate limiter value. The id field models JavaScript object identity:
each call of createRateLimiter() in the source builds a new throttle
closure, so distinct allocation sites yield distinct objects. -/
structure RateLimiterInst where
  id : Nat
  quota : Nat
  window : Nat
deriving DecidableEq

/-- Embedding of createRateLimiter: builds a throttle with the
server-side quota and window. The freshId argument records which
allocation produced this instance. -/
def createRateLimiter (freshId : Nat) : RateLimiterInst :=
  { id := freshId, quota := RATE_LIMIT_REQUESTS, window := RATE_LIMIT_PERIOD }

/-- Embedding of the module-level globalRateLimiter, the first allocation. -/
def globalRateLimiter : RateLimiterInst := createRateLimiter 0

/-- Uppercase hexadecimal digit, as produced by JS percent-encoding. -/
def hexDigit (n : Nat) : Char :=
  (['0', '1', '2', '3', '4', '5', '6', '7', '8', '9',
    'A', 'B', 'C', 'D', 'E', 'F']).getD n '0'

/-- UTF-8 byte sequence of a character, bytes as Nat. -/
def utf8Bytes (c : Char) : List Nat :=
  let n := c.toNat
  if n < 0x80 then [n]
  else if n < 0x800 then [0xC0 + n / 0x40, 0x80 + n % 0x40]
  else if n < 0x10000 then
    [0xE0 + n / 0x1000, 0x80 + (n / 0x40) % 0x40, 0x80 + n % 0x40]
  else
    [0xF0 + n / 0x40000, 0x80 + (n / 0x1000) % 0x40,
     0x80 + (n / 0x40) % 0x40, 0x80 + n % 0x40]

/-- Characters left unescaped by JS encodeURIComponent. -/
def isUriUnreserved (c : Char) : Bool :=
  c.isAlphanum || c = '-' || c = '_' || c = '.' || c = '!' || c = '~' ||
    c = '*' || c = '\'' || c = '(' || c = ')'

/-- Embedding of the JS builtin encodeURIComponent used at line 116 of the
client source: percent-encodes every character outside the unreserved set,
byte by byte over its UTF-8 encoding, with uppercase hex digits. -/
def encodeURIComponent (s : String) : String :=
  String.mk ((s.data.map (fun c =>
    if isUriUnreserved c then [c]
    else (utf8Bytes c).map
      (fun b => ['%', hexDigit (b / 16), hexDigit (b % 16)])
      |>.flatten)).flatten)

/-- Decoded JSON body of an HTTP response: the message field (read when
the request failed) and the opaque entry payload (returned on success). -/
structure JsonBody where
  message : String
  data : String
deriving DecidableEq

/-- Result of one fetch: the ok flag of the Response (2xx status) and the
decoded JSON body. -/
structure HttpResult where
  ok : Bool
  json : JsonBody
deriving DecidableEq

/-- An outbound request as assembled by the client: method, the endpoint
the relative URL is resolved against, the relative path, and headers. -/
structure Request where
  method : String
  base : String
  path : String
  headers : List (String × String)
deriving DecidableEq

/-- Observable effects of a put or list call, in per-task order. -/
inductive Action where
  | rateLimit
  | fetch (req : Request)
  | callback (url : String)
deriving DecidableEq

/-- Outcome of one settled promise, as produced by p-settle. -/
inductive SettleResult (α : Type) where
  | fulfilled (value : α)
  | rejected (reason : String)
deriving DecidableEq

def SettleResult.isRejected : SettleResult α → Bool
  | .fulfilled _ => false
  | .rejected _ => true

def SettleResult.isFulfilled : SettleResult α → Bool
  | .fulfilled _ => true
  | .rejected _ => false

/-- Service binding destructured by the static methods. -/
structure Service where
  endpoint : String
  token : String
deriving DecidableEq

def isFetch : Action → Bool
  | Action.fetch _ => true
  | _ => false

def isCallbackAct : Action → Bool
  | Action.callback _ => true
  | _ => false

/-- Number of fetch effects in a trace. -/
def fetchCount (tr : List Action) : Nat := (tr.filter isFetch).length

/-- Number of onCachedUrl invocations in a trace. -/
def callbackCount (tr : List Action) : Nat := (tr.filter isCallbackAct).length

/-- The header record built by PermaCache.headers on a truthy token. -/
def headersList (token : String) : List (String × String) :=
  [("Authorization", "Bearer " ++ token), ("X-Client", "nftstorage.link/js")]

namespace PermaCache

/-- Embedding of static headers(token): throws Error with message
missing token when the token is falsy (empty or absent), else returns
the Authorization and X-Client headers. -/
def headers (token : String) : Except String (List (String × String)) :=
  if token = "" then Except.error "missing token"
  else Except.ok (headersList token)

/-- Embedding of one element of the urls.map fan-out inside static put
(source lines 114 to 135): build the api URL from the percent-encoded
target, await the rate limiter, fetch once (attempt 0 of the world for
this url), decode the JSON body; on a non-ok status throw an Error
carrying the body message; otherwise invoke onCachedUrl(url), which is a
TypeError when the callback was not supplied, and return the body. -/
def putItem (endpoint : String) (hdrs : List (String × String))
    (onCachedUrl : Bool) (world : Nat → HttpResult) (url : String) :
    SettleResult JsonBody × List Action :=
  let req : Request :=
    { method := "POST", base := endpoint,
      path := "perma-cache/" ++ encodeURIComponent url, headers := hdrs }
  let res := world 0
  if res.ok then
    if onCachedUrl then
      (SettleResult.fulfilled res.json,
       [Action.rateLimit, Action.fetch req, Action.callback url])
    else
      (SettleResult.rejected "onCachedUrl is not a function",
       [Action.rateLimit, Action.fetch req])
  else
    (SettleResult.rejected res.json.message,
     [Action.rateLimit, Action.fetch req])

/-- Embedding of static put: destructure the service, take options
onCachedUrl and maxRetries (the latter is accepted but, as in the source,
never used), build headers (throwing on a falsy token before any request
is issued), then settle the per-url tasks with p-settle and resolve with
the full list of settle results. The second component collects the
per-item effect traces. -/
def put (svc : Service) (urls : List String) (onCachedUrl : Bool)
    (maxRetries : Nat) (worlds : String → Nat → HttpResult) :
    Except String (List (SettleResult JsonBody)) × List (List Action) :=
  match headers svc.token with
  | Except.error e => (Except.error e, [])
  | Except.ok hdrs =>
    let items := urls.map (fun url =>
      putItem svc.endpoint hdrs onCachedUrl (worlds url) url)
    (Except.ok (items.map Prod.fst), items.map Prod.snd)

/-- Response body seen by static list: ok envelope flag, the
error.message field read when ok is false, and the payload. -/
structure ListBody where
  ok : Bool
  errorMessage : String
  data : String
deriving DecidableEq

/-- Embedding of static list: build the perma-cache/ URL and headers
(throwing on a falsy token), await the rate limiter, issue one GET,
decode the body; when the envelope has ok false throw an Error carrying
error.message, otherwise resolve with the decoded body. -/
def list (svc : Service) (body : ListBody) :
    Except String ListBody × List Action :=
  match headers svc.token with
  | Except.error e => (Except.error e, [])
  | Except.ok hdrs =>
    let req : Request :=
      { method := "GET", base := svc.endpoint,
        path := "perma-cache/", headers := hdrs }
    if body.ok then (Except.ok body, [Action.rateLimit, Action.fetch req])
    else (Except.error body.errorMessage,
          [Action.rateLimit, Action.fetch req])

/-- A constructed client instance: the fields assigned by the
constructor. -/
structure Client where
  token : String
  endpoint : String
  rateLimiter : RateLimiterInst
deriving DecidableEq

/-- Embedding of the constructor (source lines 64 to 84): assigns token
and endpoint unchecked and, when no rate limiter is supplied, allocates a
fresh one with createRateLimiter(). The Except codomain records that a
JS constructor could throw; this one never does. -/
def construct (token : String) (endpoint : String)
    (rateLimiter : Option RateLimiterInst) (freshId : Nat) :
    Except String Client :=
  Except.ok { token := token, endpoint := endpoint,
              rateLimiter := rateLimiter.getD (createRateLimiter freshId) }

/-- Embedding of the default-parameter rateLimiter = globalRateLimiter in
the static methods (source line 106): the shared global limiter is used
when none is supplied. -/
def putLimiter (rateLimiter : Option RateLimiterInst) : RateLimiterInst :=
  rateLimiter.getD globalRateLimiter

end PermaCache

/-- Checks that every fetch in a trace is covered by an earlier
rate-limiter grant: grants accumulate and each fetch consumes one. -/
def fetchesGated : List Action → Nat → Bool
  | [], _ => true
  | Action.rateLimit :: rest, grants => fetchesGated rest (grants + 1)
  | Action.fetch _ :: rest, grants =>
      decide (0 < grants) && fetchesGated rest (grants - 1)
  | Action.callback _ :: rest, grants => fetchesGated rest grants

/-- Modelled from the spec: the throttled-queue rate limiter (an external
package, not part of this repository) grants queued invocations in FIFO
order, each no earlier than its arrival, and whenever the quota Q has
been used it defers a grant until a full window W after the grant Q
positions earlier. grantTime Q W arrival k is the grant instant of the
k-th queued invocation. The Q = 0 branch is degenerate and unused. -/
def grantTime (Q W : Nat) (arrival : Nat → Nat) (k : Nat) : Nat :=
  if h : k < Q ∨ Q = 0 then arrival k
  else max (arrival k) (grantTime Q W arrival (k - Q) + W)
termination_by k
decreasing_by
  simp_wf
  omega

/-- Unfolding of grantTime as a plain conditional. -/
theorem grantTime_def (Q W : Nat) (arrival : Nat → Nat) (k : Nat) :
    grantTime Q W arrival k =
      if k < Q ∨ Q = 0 then arrival k
      else max (arrival k) (grantTime Q W arrival (k - Q) + W) := by
  rw [grantTime]
  split <;> rfl

/-- grantTime is monotone in the queue position when arrivals are. -/
theorem grantTime_mono (Q W : Nat) (arrival : Nat → Nat)
    (hmono : ∀ i j, i ≤ j → arrival i ≤ arrival j) :
    ∀ m k, k ≤ m → grantTime Q W arrival k ≤ grantTime Q W arrival m := by
  intro m
  induction m using Nat.strong_induction_on with
  | _ m ih =>
    intro k hkm
    by_cases hm : m < Q ∨ Q = 0
    · have hk : k < Q ∨ Q = 0 := by omega
      rw [grantTime_def Q W arrival k, if_pos hk,
          grantTime_def Q W arrival m, if_pos hm]
      exact hmono k m hkm
    · by_cases hk : k < Q ∨ Q = 0
      · rw [grantTime_def Q W arrival k, if_pos hk,
            grantTime_def Q W arrival m, if_neg hm]
        exact le_max_of_le_left (hmono k m hkm)
      · rw [grantTime_def Q W arrival k, if_neg hk,
            grantTime_def Q W arrival m, if_neg hm]
        refine max_le_max (hmono k m hkm) (Nat.add_le_add_right ?_ W)
        exact ih (m - Q) (by omega) (k - Q) (by omega)

/-- A grant Q positions later is at least one full window later. -/
theorem grantTime_add_quota (Q W : Nat) (arrival : Nat → Nat)
    (hQ : 0 < Q) (k : Nat) :
    grantTime Q W arrival k + W ≤ grantTime Q W arrival (k + Q) := by
  rw [grantTime_def Q W arrival (k + Q), if_neg (by omega)]
  have hsub : k + Q - Q = k := by omega
  rw [hsub]
  exact le_max_right _ _

/-- Truthy-token unfolding of the outcomes of put. -/
theorem put_fst (svc : Service) (urls : List String) (onCachedUrl : Bool)
    (maxRetries : Nat) (worlds : String → Nat → HttpResult)
    (h : svc.token ≠ "") :
    (PermaCache.put svc urls onCachedUrl maxRetries worlds).1 =
      Except.ok (urls.map (fun url =>
        (PermaCache.putItem svc.endpoint (headersList svc.token)
          onCachedUrl (worlds url) url).1)) := by
  simp only [PermaCache.put, PermaCache.headers, if_neg h, List.map_map]
  rfl

/-- Truthy-token unfolding of the traces of put. -/
theorem put_snd (svc : Service) (urls : List String) (onCachedUrl : Bool)
    (maxRetries : Nat) (worlds : String → Nat → HttpResult)
    (h : svc.token ≠ "") :
    (PermaCache.put svc urls onCachedUrl maxRetries worlds).2 =
      urls.map (fun url =>
        (PermaCache.putItem svc.endpoint (headersList svc.token)
          onCachedUrl (worlds url) url).2) := by
  simp only [PermaCache.put, PermaCache.headers, if_neg h, List.map_map]
  rfl

/-- The trace of one put item: a rate-limiter grant, then the single
POST fetch, then the callback invocation exactly when the request
succeeded and the callback was supplied. -/
theorem putItem_snd (endpoint : String) (hdrs : List (String × String))
    (onCachedUrl : Bool) (world : Nat → HttpResult) (url : String) :
    (PermaCache.putItem endpoint hdrs onCachedUrl world url).2 =
      Action.rateLimit ::
      Action.fetch
        { method := "POST", base := endpoint,
          path := "perma-cache/" ++ encodeURIComponent url,
          headers := hdrs } ::
      (if (world 0).ok = true ∧ onCachedUrl = true
        then [Action.callback url] else []) := by
  by_cases hok : (world 0).ok <;> by_cases hcb : onCachedUrl <;>
    simp [PermaCache.putItem, hok, hcb]

/-- A failed request settles its item as a rejection carrying the JSON
message field. -/
theorem putItem_fst_rejected (endpoint : String)
    (hdrs : List (String × String)) (onCachedUrl : Bool)
    (world : Nat → HttpResult) (url : String)
    (hf : (world 0).ok = false) :
    (PermaCache.putItem endpoint hdrs onCachedUrl world url).1 =
      SettleResult.rejected (world 0).json.message := by
  simp [PermaCache.putItem, hf]

/-- A successful request with the callback supplied settles fulfilled
with the decoded body. -/
theorem putItem_fst_fulfilled (endpoint : String)
    (hdrs : List (String × String)) (world : Nat → HttpResult)
    (url : String) (hok : (world 0).ok = true) :
    (PermaCache.putItem endpoint hdrs true world url).1 =
      SettleResult.fulfilled (world 0).json := by
  simp [PermaCache.putItem, hok]

/-- Example service binding for concrete instances. -/
def svcEx : Service :=
  { endpoint := "https://api.nftstorage.link", token := "t" }

/-- Example service binding with an empty token. -/
def svcNoToken : Service :=
  { endpoint := "https://api.nftstorage.link", token := "" }

/-- Example decoded entry bodies. -/
def entry1 : JsonBody := { message := "", data := "entry1" }

def entry2 : JsonBody := { message := "", data := "entry2" }

/-- Worlds in which every request succeeds with entry1. -/
def okWorlds : String → Nat → HttpResult :=
  fun _ _ => { ok := true, json := entry1 }

/-- Worlds in which the first URL succeeds and the second fails. -/
def mixedWorlds : String → Nat → HttpResult := fun url _ =>
  if url = "https://a/2" then
    { ok := false, json := { message := "boom", data := "" } }
  else { ok := true, json := entry1 }

/-- The spec retry fixture: the second URL answers HTTP 500 on the first
two attempts and 200 with entry2 on the third. -/
def retryWorlds : String → Nat → HttpResult := fun url attempt =>
  if url = "https://a/2" then
    if attempt < 2 then
      { ok := false,
        json := { message := "Internal Server Error", data := "" } }
    else { ok := true, json := entry2 }
  else { ok := true, json := entry1 }

/-- All queued invocations arrive at instant 0. -/
def constArrival : Nat → Nat := fun _ => 0

/-- C1: for every list of URLs, put with a truthy token resolves with a
settle result for every input item; an item whose request fails is
recovered locally into a rejection entry at its own position, while a
sibling whose request succeeds (with the callback supplied) still
fulfils, so one failure never cancels, fails or aborts the others and
the overall call never raises. -/
theorem put_settleAll_C1 (svc : Service) (urls : List String)
    (onCachedUrl : Bool) (maxRetries : Nat)
    (worlds : String → Nat → HttpResult) (h : svc.token ≠ "") :
    ∃ outs, (PermaCache.put svc urls onCachedUrl maxRetries worlds).1 =
        Except.ok outs ∧
      outs.length = urls.length ∧
      (∀ i (h1 : i < urls.length) (h2 : i < outs.length),
        (worlds (urls.get ⟨i, h1⟩) 0).ok = false →
          outs.get ⟨i, h2⟩ =
            SettleResult.rejected
              ((worlds (urls.get ⟨i, h1⟩) 0).json.message)) ∧
      (∀ i (h1 : i < urls.length) (h2 : i < outs.length),
        (worlds (urls.get ⟨i, h1⟩) 0).ok = true → onCachedUrl = true →
          outs.get ⟨i, h2⟩ =
            SettleResult.fulfilled ((worlds (urls.get ⟨i, h1⟩) 0).json)) := by
  refine ⟨_, put_fst svc urls onCachedUrl maxRetries worlds h, by simp,
    ?_, ?_⟩
  · intro i h1 h2 hf
    simp only [List.get_eq_getElem, List.getElem_map]
    exact putItem_fst_rejected _ _ _ _ _ hf
  · intro i h1 h2 hok hcb
    subst hcb
    simp only [List.get_eq_getElem, List.getElem_map]
    exact putItem_fst_fulfilled _ _ _ _ hok

/-- Witness for put_settleAll_C1: a concrete two-item batch in which the
second request fails. -/
theorem put_settleAll_C1_witness :
    svcEx.token ≠ "" ∧
    ∃ outs, (PermaCache.put svcEx ["https://a/1", "https://a/2"] true 5
        mixedWorlds).1 = Except.ok outs ∧ outs.length = 2 :=
  ⟨by decide,
    Exists.imp (fun outs hh => ⟨hh.1, hh.2.1⟩)
      (put_settleAll_C1 svcEx ["https://a/1", "https://a/2"] true 5
        mixedWorlds (by decide))⟩

/-- C2: the resolved outcomes array has exactly one element per input
URL and the i-th outcome is the settle result of the i-th input URL,
determined by that URL alone. -/
theorem put_order_C2 (svc : Service) (urls : List String)
    (onCachedUrl : Bool) (maxRetries : Nat)
    (worlds : String → Nat → HttpResult) (h : svc.token ≠ "") :
    ∃ outs, (PermaCache.put svc urls onCachedUrl maxRetries worlds).1 =
        Except.ok outs ∧
      outs.length = urls.length ∧
      ∀ i (h1 : i < urls.length) (h2 : i < outs.length),
        outs.get ⟨i, h2⟩ =
          (PermaCache.putItem svc.endpoint (headersList svc.token)
            onCachedUrl (worlds (urls.get ⟨i, h1⟩))
            (urls.get ⟨i, h1⟩)).1 := by
  refine ⟨_, put_fst svc urls onCachedUrl maxRetries worlds h, by simp, ?_⟩
  intro i h1 h2
  simp only [List.get_eq_getElem, List.getElem_map]

/-- Witness for put_order_C2 on a concrete two-item batch. -/
theorem put_order_C2_witness :
    svcEx.token ≠ "" ∧
    ∃ outs, (PermaCache.put svcEx ["https://a/1", "https://a/2"] true 5
        okWorlds).1 = Except.ok outs ∧ outs.length = 2 :=
  ⟨by decide,
    Exists.imp (fun outs hh => ⟨hh.1, hh.2.1⟩)
      (put_order_C2 svcEx ["https://a/1", "https://a/2"] true 5
        okWorlds (by decide))⟩

/-- C10: with the onCachedUrl callback omitted, every item of a put
batch settles rejected, even items whose HTTP request succeeds, because
the code invokes the missing callback unconditionally after a successful
response; fulfilled entries are only possible when the callback is
supplied. -/
theorem put_noCallback_C10 (svc : Service) (urls : List String)
    (maxRetries : Nat) (worlds : String → Nat → HttpResult)
    (h : svc.token ≠ "") :
    ∃ outs, (PermaCache.put svc urls false maxRetries worlds).1 =
        Except.ok outs ∧
      ∀ o ∈ outs, o.isRejected = true := by
  refine ⟨_, put_fst svc urls false maxRetries worlds h, ?_⟩
  intro o ho
  simp only [List.mem_map] at ho
  obtain ⟨url, _, rfl⟩ := ho
  by_cases hok : (worlds url 0).ok <;>
    simp [PermaCache.putItem, hok, SettleResult.isRejected]

/-- Witness for put_noCallback_C10: a concrete batch whose only request
succeeds, yet settles rejected without the callback. -/
theorem put_noCallback_C10_witness :
    svcEx.token ≠ "" ∧
    ∃ outs, (PermaCache.put svcEx ["https://a/1"] false 5 okWorlds).1 =
        Except.ok outs ∧ ∀ o ∈ outs, o.isRejected = true :=
  ⟨by decide,
    put_noCallback_C10 svcEx ["https://a/1"] 5 okWorlds (by decide)⟩

/-- C3 at the failing input: with maxRetries 5 and a server that answers
the second URL with HTTP 500 on the first two attempts and 200 on the
third, put performs exactly one fetch per item and the second item
settles rejected with the 500 message: the accepted maxRetries option is
never applied, so no retry or backoff ever happens. -/
theorem put_singleAttempt_C3 :
    (PermaCache.put svcEx ["https://a/1", "https://a/2"] true 5
        retryWorlds).1 =
      Except.ok [SettleResult.fulfilled entry1,
        SettleResult.rejected "Internal Server Error"] ∧
    (PermaCache.put svcEx ["https://a/1", "https://a/2"] true 5
        retryWorlds).2.map fetchCount = [1, 1] :=
  ⟨rfl, rfl⟩

/-- C4 at the failing input: a put whose only request succeeds settles
rejected with a TypeError when onCachedUrl is omitted, because the code
invokes the absent callback unconditionally; with the callback supplied
the same batch fulfils and invokes it exactly once. -/
theorem put_callbackUnconditional_C4 :
    (PermaCache.put svcEx ["https://a/1"] false 5 okWorlds).1 =
      Except.ok [SettleResult.rejected "onCachedUrl is not a function"] ∧
    (PermaCache.put svcEx ["https://a/1"] false 5 okWorlds).2.map
        callbackCount = [0] ∧
    (PermaCache.put svcEx ["https://a/1"] true 5 okWorlds).1 =
      Except.ok [SettleResult.fulfilled entry1] ∧
    (PermaCache.put svcEx ["https://a/1"] true 5 okWorlds).2.map
        callbackCount = [1] :=
  ⟨rfl, rfl, rfl, rfl⟩

/-- C5 counterexample: constructing a client with the token set to the
empty string succeeds and performs no validation at all, contradicting
the claim that construction itself fails fast. -/
theorem construct_emptyToken_C5_counterexample :
    PermaCache.construct "" "https://api.nftstorage.link" none 1 =
      Except.ok { token := "", endpoint := "https://api.nftstorage.link",
                  rateLimiter := createRateLimiter 1 } :=
  rfl

/-- C5 amended: the constructor never validates the token; instead a
falsy token makes put and list throw Error missing token synchronously
at call time, before any rate-limiter grant or network request and with
no retry, while construction succeeds for any token. -/
theorem missingToken_C5 (svc : Service) (urls : List String)
    (onCachedUrl : Bool) (maxRetries : Nat)
    (worlds : String → Nat → HttpResult) (body : PermaCache.ListBody)
    (tok ep : String) (rl : Option RateLimiterInst) (freshId : Nat)
    (h : svc.token = "") :
    PermaCache.put svc urls onCachedUrl maxRetries worlds =
      (Except.error "missing token", []) ∧
    PermaCache.list svc body = (Except.error "missing token", []) ∧
    PermaCache.construct tok ep rl freshId =
      Except.ok { token := tok, endpoint := ep,
                  rateLimiter := rl.getD (createRateLimiter freshId) } := by
  refine ⟨?_, ?_, rfl⟩
  · simp [PermaCache.put, PermaCache.headers, h]
  · simp [PermaCache.list, PermaCache.headers, h]

/-- Witness for missingToken_C5 on a concrete empty-token binding. -/
theorem missingToken_C5_witness :
    svcNoToken.token = "" ∧
    PermaCache.put svcNoToken ["https://a/1"] true 5 okWorlds =
      (Except.error "missing token", []) :=
  ⟨rfl,
    (missingToken_C5 svcNoToken ["https://a/1"] true 5 okWorlds
      { ok := true, errorMessage := "", data := "" } "t"
      "https://api.nftstorage.link" none 1 rfl).1⟩

/-- C6: a list response whose decoded body has ok false makes list throw
an error carrying the server-provided error.message after exactly one
request, aborting the whole call; a body with ok true resolves with the
decoded body. -/
theorem list_envelope_C6 (svc : Service) (body : PermaCache.ListBody)
    (h : svc.token ≠ "") :
    (body.ok = false →
      (PermaCache.list svc body).1 = Except.error body.errorMessage ∧
        fetchCount (PermaCache.list svc body).2 = 1) ∧
    (body.ok = true → (PermaCache.list svc body).1 = Except.ok body) := by
  constructor
  · intro hnot
    constructor
    · simp [PermaCache.list, PermaCache.headers, h, hnot]
    · simp [PermaCache.list, PermaCache.headers, h, hnot, fetchCount,
        isFetch]
  · intro hok
    simp [PermaCache.list, PermaCache.headers, h, hok]

/-- Witness for list_envelope_C6: the bad token scenario. -/
theorem list_envelope_C6_witness :
    svcEx.token ≠ "" ∧
    ((PermaCache.list svcEx
        { ok := false, errorMessage := "bad token", data := "" }).1 =
      Except.error "bad token" ∧
     fetchCount (PermaCache.list svcEx
        { ok := false, errorMessage := "bad token", data := "" }).2 = 1) :=
  ⟨by decide,
    (list_envelope_C6 svcEx
      { ok := false, errorMessage := "bad token", data := "" }
      (by decide)).1 rfl⟩

/-- C7: each item of a put batch issues a POST resolved against the
bound endpoint at path perma-cache/ followed by the percent-encoded
target URL, carrying exactly the Authorization Bearer and X-Client
headers; on a non-success status the item rejection carries the
server-provided JSON message field. -/
theorem put_request_C7 (svc : Service) (urls : List String)
    (onCachedUrl : Bool) (maxRetries : Nat)
    (worlds : String → Nat → HttpResult) (h : svc.token ≠ "") :
    ∀ i (h1 : i < urls.length),
      (∃ rest,
        (PermaCache.put svc urls onCachedUrl maxRetries worlds).2.getD i [] =
          Action.rateLimit ::
          Action.fetch
            { method := "POST", base := svc.endpoint,
              path := "perma-cache/" ++
                encodeURIComponent (urls.get ⟨i, h1⟩),
              headers := [("Authorization", "Bearer " ++ svc.token),
                          ("X-Client", "nftstorage.link/js")] } :: rest) ∧
      ((worlds (urls.get ⟨i, h1⟩) 0).ok = false →
        ((PermaCache.put svc urls onCachedUrl maxRetries
            worlds).1.toOption.getD []).getD i (SettleResult.rejected "") =
          SettleResult.rejected
            ((worlds (urls.get ⟨i, h1⟩) 0).json.message)) := by
  intro i h1
  constructor
  · rw [put_snd svc urls onCachedUrl maxRetries worlds h]
    have hlen : i < (urls.map (fun url =>
        (PermaCache.putItem svc.endpoint (headersList svc.token)
          onCachedUrl (worlds url) url).2)).length := by
      simpa using h1
    rw [List.getD_eq_getElem _ _ hlen]
    simp only [List.getElem_map]
    refine ⟨if (worlds urls[i] 0).ok = true ∧ onCachedUrl = true
        then [Action.callback urls[i]] else [], ?_⟩
    rw [putItem_snd]
    simp [headersList, List.get_eq_getElem]
  · intro hf
    rw [put_fst svc urls onCachedUrl maxRetries worlds h]
    have hlen : i < (urls.map (fun url =>
        (PermaCache.putItem svc.endpoint (headersList svc.token)
          onCachedUrl (worlds url) url).1)).length := by
      simpa using h1
    simp only [Except.toOption, Option.getD_some]
    rw [List.getD_eq_getElem _ _ hlen]
    simp only [List.getElem_map]
    exact putItem_fst_rejected _ _ _ _ _
      (by simpa [List.get_eq_getElem] using hf)

/-- Witness for put_request_C7 at a concrete one-item batch. -/
theorem put_request_C7_witness :
    svcEx.token ≠ "" ∧
    ((∃ rest,
        (PermaCache.put svcEx ["https://a/1"] true 5 okWorlds).2.getD 0 [] =
          Action.rateLimit ::
          Action.fetch
            { method := "POST", base := "https://api.nftstorage.link",
              path := "perma-cache/" ++ encodeURIComponent "https://a/1",
              headers := [("Authorization", "Bearer t"),
                          ("X-Client", "nftstorage.link/js")] } :: rest) ∧
     ((okWorlds "https://a/1" 0).ok = false →
        ((PermaCache.put svcEx ["https://a/1"] true 5
            okWorlds).1.toOption.getD []).getD 0 (SettleResult.rejected "") =
          SettleResult.rejected ((okWorlds "https://a/1" 0).json.message))) :=
  ⟨by decide,
    put_request_C7 svcEx ["https://a/1"] true 5 okWorlds (by decide) 0
      (by decide)⟩

/-- C8 counterexample: a client constructed without a rate limiter does
not receive the shared global default: the constructor allocates a fresh
limiter, distinct from globalRateLimiter. -/
theorem defaultLimiter_C8_counterexample :
    PermaCache.construct "t" "https://api.nftstorage.link" none 1 =
      Except.ok { token := "t", endpoint := "https://api.nftstorage.link",
                  rateLimiter := createRateLimiter 1 } ∧
    createRateLimiter 1 ≠ globalRateLimiter :=
  ⟨rfl, by decide⟩

/-- C8 amended: the static operations default to the shared
globalRateLimiter, while a client constructed without a limiter receives
its own freshly created instance; in both cases the default limiter has
quota 100 requests per 60000 ms window, matching the server-enforced
limit. -/
theorem defaultLimiter_C8 (tok ep : String) (freshId : Nat) :
    PermaCache.putLimiter none = globalRateLimiter ∧
    globalRateLimiter.quota = 100 ∧
    globalRateLimiter.window = 60000 ∧
    PermaCache.construct tok ep none freshId =
      Except.ok { token := tok, endpoint := ep,
                  rateLimiter := createRateLimiter freshId } ∧
    (createRateLimiter freshId).quota = 100 ∧
    (createRateLimiter freshId).window = 60000 :=
  ⟨rfl, rfl, rfl, rfl, rfl, rfl⟩

/-- C9: over the modelled throttled-queue limiter with quota Q and
window W, any two grants separated by fewer than W time units are fewer
than Q queue positions apart, so no span of length W contains more than
Q grants; the limiter only delays (every queued invocation receives a
grant time); and every fetch in every per-item trace of put is preceded
by a consumed rate-limiter grant. -/
theorem rateLimiter_window_C9 (Q W : Nat) (arrival : Nat → Nat)
    (hQ : 0 < Q) (hmono : ∀ i j, i ≤ j → arrival i ≤ arrival j)
    (svc : Service) (urls : List String) (onCachedUrl : Bool)
    (maxRetries : Nat) (worlds : String → Nat → HttpResult) :
    (∀ k m, k ≤ m →
      grantTime Q W arrival m < grantTime Q W arrival k + W →
        m < k + Q) ∧
    (∀ tr ∈ (PermaCache.put svc urls onCachedUrl maxRetries worlds).2,
      fetchesGated tr 0 = true) := by
  constructor
  · intro k m hkm hwin
    by_contra hge
    push_neg at hge
    have h1 : grantTime Q W arrival k + W ≤ grantTime Q W arrival (k + Q) :=
      grantTime_add_quota Q W arrival hQ k
    have h2 : grantTime Q W arrival (k + Q) ≤ grantTime Q W arrival m :=
      grantTime_mono Q W arrival hmono m (k + Q) hge
    omega
  · intro tr htr
    by_cases h : svc.token = ""
    · simp [PermaCache.put, PermaCache.headers, h] at htr
    · rw [put_snd svc urls onCachedUrl maxRetries worlds h] at htr
      simp only [List.mem_map] at htr
      obtain ⟨url, _, rfl⟩ := htr
      rw [putItem_snd]
      by_cases hok : (worlds url 0).ok <;> by_cases hcb : onCachedUrl <;>
        simp [hok, hcb, fetchesGated]

/-- Witness for rateLimiter_window_C9 with quota 2, window 10, all
arrivals at instant 0, and a concrete one-item batch. -/
theorem rateLimiter_window_C9_witness :
    (0 < 2) ∧ (∀ i j : Nat, i ≤ j → constArrival i ≤ constArrival j) ∧
    ((∀ k m, k ≤ m →
        grantTime 2 10 constArrival m < grantTime 2 10 constArrival k + 10 →
          m < k + 2) ∧
     (∀ tr ∈ (PermaCache.put svcEx ["https://a/1"] true 5 okWorlds).2,
        fetchesGated tr 0 = true)) :=
  ⟨by decide, fun i j h => Nat.le_refl 0,
    rateLimiter_window_C9 2 10 constArrival (by decide)
      (fun i j h => Nat.le_refl 0) svcEx ["https://a/1"] true 5 okWorlds⟩

end NftStorageLink
